import Mathlib

/-!
Verification development for a chat-platform join-request approver bot
(single source file accepter_bot.py). The data model and operations below
are a shallow embedding of that file: the MongoDB channels collection is a
list of records keyed by an integer id, the database functions add_channel
and get_welcome_message mirror the update_one / find_one calls, the
conversation wizard handler handle_forwarded_message and the join-request
handler approve_chat_join_request are modelled as pure functions over the
outcomes of the external platform calls (membership check, approval call,
direct-message send, storage lookup), returning the replies, log entries,
registry state and any exception that escapes the handler.
-/

namespace AccepterBot

/-- A document of the channels collection: `_id` plus the optional
welcome_message field (the field may be missing in a document). -/
structure ChannelRecord where
  id : Int
  welcome_message : Option String
deriving DecidableEq

/-- The channels collection. -/
abbrev Registry := List ChannelRecord

/-- The default welcome message inserted by add_channel. -/
def default_message : String := "Welcome! Your request to join has been approved."

/-- find_one on the collection with filter by `_id`. -/
def find_one (reg : Registry) (chat_id : Int) : Option ChannelRecord :=
  reg.find? (fun r => r.id == chat_id)

/-- Number of documents whose `_id` equals chat_id. MongoDB keeps `_id`
unique, so well-formed collections have at most one per id. -/
def idCount (reg : Registry) (chat_id : Int) : Nat :=
  (reg.filter (fun r => r.id == chat_id)).length

/-- add_channel: update_one with an `_id` filter, a single setOnInsert
update operator and upsert true. If a document with the id exists, the
update operator does nothing; otherwise a fresh document with the default
welcome message is inserted. -/
def add_channel (reg : Registry) (chat_id : Int) : Registry :=
  match find_one reg chat_id with
  | some _ => reg
  | none => reg ++ [{ id := chat_id, welcome_message := some default_message }]

/-- get_welcome_message: find_one, then dict get of the welcome_message
field (None when the document or the field is absent). -/
def get_welcome_message (reg : Registry) (chat_id : Int) : Option String :=
  match find_one reg chat_id with
  | some r => r.welcome_message
  | none => none

/-- Python truthiness of the looked-up message: None and the empty string
are falsy. -/
def truthy : Option String → Bool
  | none => false
  | some s => !(s == "")

/-- Outcome of the storage lookup as seen by the caller: a value, or an
exception raised by the underlying store. -/
inductive StoreResult (α : Type) where
  | ok (val : α)
  | exn (msg : String)
deriving DecidableEq

/-- Outcome of the platform approve_chat_join_request call. -/
inductive ApproveResult where
  | success
  | failure (msg : String)
deriving DecidableEq

/-- Outcome of the platform send_message call: success, the specific
Forbidden error (user blocked the bot), or any other exception. -/
inductive SendResult where
  | success
  | forbidden
  | otherError (msg : String)
deriving DecidableEq

/-- Levels of the logging calls in the source. -/
inductive LogLevel where
  | info
  | warning
  | error
deriving DecidableEq

/-- One logging call: level and message. -/
structure LogEntry where
  level : LogLevel
  msg : String
deriving DecidableEq

/-- Observable behaviour of one run of approve_chat_join_request:
the approval call issued (chat_id, user_id) if any, the direct message
sent (user_id, text) if any, the log entries, and the exception escaping
the handler if any. -/
structure JoinOutcome where
  approveCall : Option (Int × Int)
  sendCall : Option (Int × String)
  logs : List LogEntry
  raised : Option String
deriving DecidableEq

/-- approve_chat_join_request. The lookup result is a StoreResult because
the get_welcome_message call stands outside the try block: an exception
from it escapes the handler. A falsy message (absent document, missing
field or empty string) returns with no action. Otherwise the approval is
attempted inside a try whose except clause logs an error; on success the
send is attempted inside an inner try that catches only Forbidden with a
warning, any other send exception being caught by the outer except. -/
def approve_chat_join_request (lookup : StoreResult (Option String))
    (approve : ApproveResult) (send : SendResult)
    (chat_id user_id : Int) (user_name : String) : JoinOutcome :=
  match lookup with
  | .exn e => { approveCall := none, sendCall := none, logs := [], raised := some e }
  | .ok none => { approveCall := none, sendCall := none, logs := [], raised := none }
  | .ok (some m) =>
    if m == "" then
      { approveCall := none, sendCall := none, logs := [], raised := none }
    else
      match approve with
      | .failure e =>
          { approveCall := some (chat_id, user_id), sendCall := none,
            logs := [⟨.error, "Failed to process join request for " ++ user_name ++ ": " ++ e⟩],
            raised := none }
      | .success =>
          match send with
          | .success =>
              { approveCall := some (chat_id, user_id), sendCall := some (user_id, m),
                logs := [⟨.info, "Approved join request for " ++ user_name ++ " in chat "
                           ++ toString chat_id ++ "."⟩,
                         ⟨.info, "Sent welcome message to " ++ user_name ++ "."⟩],
                raised := none }
          | .forbidden =>
              { approveCall := some (chat_id, user_id), sendCall := some (user_id, m),
                logs := [⟨.info, "Approved join request for " ++ user_name ++ " in chat "
                           ++ toString chat_id ++ "."⟩,
                         ⟨.warning, "Could not send PM to " ++ user_name ++ " (blocked bot)."⟩],
                raised := none }
          | .otherError e =>
              { approveCall := some (chat_id, user_id), sendCall := some (user_id, m),
                logs := [⟨.info, "Approved join request for " ++ user_name ++ " in chat "
                           ++ toString chat_id ++ "."⟩,
                         ⟨.error, "Failed to process join request for " ++ user_name ++ ": " ++ e⟩],
                raised := none }

/-- Conversation states of the connect wizard: AWAIT_FORWARD, and the
terminal ConversationHandler END. -/
inductive WizardState where
  | AWAIT_FORWARD
  | END
deriving DecidableEq

/-- Result of get_chat_member for the bot itself: its status string and
the can_invite_users flag. -/
structure ChatMember where
  status : String
  can_invite_users : Bool
deriving DecidableEq

/-- Outcome of the membership check call: a member record, or an
exception. -/
inductive MemberCheck where
  | ok (m : ChatMember)
  | error (e : String)
deriving DecidableEq

/-- The inputs reachable in state AWAIT_FORWARD: a message that is not a
channel forward, a channel forward (with the outcomes of the membership
check and of the registry upsert attempt), or the cancel command. -/
inductive WizardInput where
  | nonForward
  | channelForward (chat_id : Int) (chat_title : String)
      (check : MemberCheck) (registryFailure : Option String)
  | cancel
deriving DecidableEq

/-- Observable behaviour of one wizard step: the next conversation state,
the replies sent, the registry afterwards, and whether the registry upsert
was invoked. -/
structure WizardOutcome where
  state : WizardState
  replies : List String
  registry : Registry
  upsertCalled : Bool
deriving DecidableEq

/-- Reply when the message is not a forward from a channel. -/
def retry_reply : String := "This is not a forwarded message from a channel. Please try again."

/-- Reply when the bot lacks admin rights or the invite-users permission. -/
def perm_fail_reply (chat_title : String) : String :=
  "I am not an admin in \x27" ++ chat_title ++ "\x27 or I lack \x27Invite Users\x27 permission."

/-- Reply on successful connection, naming the channel title. -/
def success_reply (chat_title : String) : String :=
  "✅ Successfully connected to channel: " ++ chat_title ++ "."

/-- Reply when an unexpected exception is caught. -/
def error_reply (e : String) : String := "An error occurred: " ++ e

/-- Reply of the cancel fallback. -/
def cancel_reply : String := "Operation cancelled."

/-- handle_forwarded_message: chat is forward_from_chat (None when the
message is not forwarded from a channel). On a channel forward the
membership status is checked inside a try; lacking admin or invite rights
ends the conversation with a failure reply and no registry call; with the
rights, add_channel runs and a success reply names the title; any
exception from the check or the registry call is caught, an error reply is
sent and the conversation ends. -/
def handle_forwarded_message (reg : Registry) (chat : Option (Int × String))
    (check : MemberCheck) (registryFailure : Option String) : WizardOutcome :=
  match chat with
  | none => { state := .AWAIT_FORWARD, replies := [retry_reply], registry := reg, upsertCalled := false }
  | some (chat_id, chat_title) =>
    match check with
    | .error e =>
        { state := .END, replies := [error_reply e], registry := reg, upsertCalled := false }
    | .ok bot_member =>
        if bot_member.status == "administrator" && bot_member.can_invite_users then
          match registryFailure with
          | some e =>
              { state := .END, replies := [error_reply e], registry := reg, upsertCalled := true }
          | none =>
              { state := .END, replies := [success_reply chat_title],
                registry := add_channel reg chat_id, upsertCalled := true }
        else
          { state := .END, replies := [perm_fail_reply chat_title], registry := reg,
            upsertCalled := false }

/-- One step of the wizard from state AWAIT_FORWARD: the cancel fallback,
or handle_forwarded_message on the incoming message. -/
def wizard_step (reg : Registry) (inp : WizardInput) : WizardOutcome :=
  match inp with
  | .cancel => { state := .END, replies := [cancel_reply], registry := reg, upsertCalled := false }
  | .nonForward => handle_forwarded_message reg none (.ok ⟨"", false⟩) none
  | .channelForward chat_id chat_title check registryFailure =>
      handle_forwarded_message reg (some (chat_id, chat_title)) check registryFailure

/-- Startup configuration: the two environment values (None when unset)
and whether the MongoDB client connection was established. -/
structure Config where
  bot_token : Option String
  mongodb_uri : Option String
  client_connected : Bool
deriving DecidableEq

/-- Result of main: a fatal logged exit before any handler registration,
or a started application with its registered handlers. -/
inductive MainResult where
  | fatalExit (log : String)
  | started (handlers : List String)
deriving DecidableEq

/-- main: if any of BOT_TOKEN, MONGODB_URI, client is falsy, log a
critical diagnostic and return; otherwise build the application, register
the three handlers and run polling. -/
def main (cfg : Config) : MainResult :=
  if truthy cfg.bot_token && truthy cfg.mongodb_uri && cfg.client_connected then
    .started ["start", "connect_conversation", "chat_join_request"]
  else
    .fatalExit "Missing BOT_TOKEN or MONGODB_URI, or failed to connect to DB. Exiting."

/-- Registries reachable by the program itself: built from the empty
collection by add_channel calls only (nothing else writes). -/
inductive Reachable : Registry → Prop where
  | empty : Reachable []
  | step (reg : Registry) (chat_id : Int) : Reachable reg → Reachable (add_channel reg chat_id)

/-- Appending a fresh record with a matching id to a registry in which the
id was absent makes find_one return that record. -/
theorem find_one_append_single (reg : Registry) (r : ChannelRecord) (chat_id : Int)
    (h : find_one reg chat_id = none) (hr : (r.id == chat_id) = true) :
    find_one (reg ++ [r]) chat_id = some r := by
  unfold find_one at h ⊢
  have hone : List.find? (fun x : ChannelRecord => x.id == chat_id) [r] = some r := by
    simp [hr]
  rw [List.find?_append, h, hone]
  rfl

/-- When find_one misses, no document has the id. -/
theorem idCount_eq_zero (reg : Registry) (chat_id : Int)
    (h : find_one reg chat_id = none) : idCount reg chat_id = 0 := by
  unfold idCount
  rw [List.length_eq_zero, List.filter_eq_nil_iff]
  intro a ha
  simpa using List.find?_eq_none.mp h a ha

/-- When find_one hits, at least one document has the id. -/
theorem idCount_pos (reg : Registry) (chat_id : Int) (r : ChannelRecord)
    (h : find_one reg chat_id = some r) : 1 ≤ idCount reg chat_id := by
  unfold find_one at h
  have hmem : r ∈ reg := List.mem_of_find?_eq_some h
  have hp : (r.id == chat_id) = true := by simpa using List.find?_some h
  have hf : r ∈ reg.filter (fun x : ChannelRecord => x.id == chat_id) := by
    rw [List.mem_filter]
    exact ⟨hmem, hp⟩
  exact List.length_pos.mpr (List.ne_nil_of_mem hf)

/-- Document count after appending one record. -/
theorem idCount_append_single (reg : Registry) (r : ChannelRecord) (chat_id : Int) :
    idCount (reg ++ [r]) chat_id
      = idCount reg chat_id + (if (r.id == chat_id) = true then 1 else 0) := by
  unfold idCount
  rw [List.filter_append, List.length_append]
  by_cases hp : ((r.id == chat_id) = true)
  · simp [hp]
  · simp [hp]

/-- Claim C3: calling add_channel twice with the same channel id leaves the
registry with exactly one record for the id, the second call is a no-op on
the registry, and the stored welcome message equals the value established
by the first call (insert-only-if-absent semantics). The hypothesis states
the MongoDB uniqueness of the `_id` key in the starting collection. -/
theorem add_channel_idempotent (reg : Registry) (chat_id : Int)
    (h : idCount reg chat_id ≤ 1) :
    add_channel (add_channel reg chat_id) chat_id = add_channel reg chat_id ∧
    idCount (add_channel (add_channel reg chat_id) chat_id) chat_id = 1 ∧
    get_welcome_message (add_channel (add_channel reg chat_id) chat_id) chat_id
      = get_welcome_message (add_channel reg chat_id) chat_id := by
  cases hf : find_one reg chat_id with
  | some r =>
      have h1 : add_channel reg chat_id = reg := by unfold add_channel; rw [hf]
      have hc : idCount reg chat_id = 1 := le_antisymm h (idCount_pos reg chat_id r hf)
      refine ⟨?_, ?_, ?_⟩
      · rw [h1, h1]
      · rw [h1, h1]; exact hc
      · rw [h1, h1]
  | none =>
      have h1 : add_channel reg chat_id
          = reg ++ [{ id := chat_id, welcome_message := some default_message }] := by
        unfold add_channel; rw [hf]
      have hr : (({ id := chat_id, welcome_message := some default_message }
          : ChannelRecord).id == chat_id) = true := by simp
      have hf2 : find_one
          (reg ++ [{ id := chat_id, welcome_message := some default_message }]) chat_id
          = some { id := chat_id, welcome_message := some default_message } :=
        find_one_append_single reg _ chat_id hf hr
      have h2 : add_channel
          (reg ++ [{ id := chat_id, welcome_message := some default_message }]) chat_id
          = reg ++ [{ id := chat_id, welcome_message := some default_message }] := by
        unfold add_channel; rw [hf2]
      have hz : idCount reg chat_id = 0 := idCount_eq_zero reg chat_id hf
      refine ⟨?_, ?_, ?_⟩
      · rw [h1, h2]
      · rw [h1, h2, idCount_append_single]
        simp [hz, hr]
      · rw [h1, h2]

/-- Claim C3 witness at a concrete input. -/
theorem add_channel_idempotent_witness :
    idCount ([] : Registry) 7 ≤ 1 ∧
    (add_channel (add_channel ([] : Registry) 7) 7 = add_channel ([] : Registry) 7 ∧
     idCount (add_channel (add_channel ([] : Registry) 7) 7) 7 = 1 ∧
     get_welcome_message (add_channel (add_channel ([] : Registry) 7) 7) 7
       = get_welcome_message (add_channel ([] : Registry) 7) 7) :=
  ⟨by decide, add_channel_idempotent [] 7 (by decide)⟩

/-- Claim C2: a join request for a chat id with no usable registry record
is silently ignored: no approval call, no direct message, no log, no
exception, whatever the platform would have answered. -/
theorem unregistered_channel_ignored (reg : Registry) (chat_id user_id : Int)
    (user_name : String) (approve : ApproveResult) (send : SendResult)
    (h : get_welcome_message reg chat_id = none) :
    approve_chat_join_request (.ok (get_welcome_message reg chat_id)) approve send
        chat_id user_id user_name
      = { approveCall := none, sendCall := none, logs := [], raised := none } := by
  rw [h]
  rfl

/-- Claim C2 witness at a concrete input. -/
theorem unregistered_channel_ignored_witness :
    get_welcome_message ([⟨300, some "Hi there"⟩] : Registry) 999 = none ∧
    approve_chat_join_request
        (.ok (get_welcome_message ([⟨300, some "Hi there"⟩] : Registry) 999))
        .success .success 999 5 "Alice"
      = { approveCall := none, sendCall := none, logs := [], raised := none } :=
  ⟨by decide,
   unregistered_channel_ignored [⟨300, some "Hi there"⟩] 999 5 "Alice"
     .success .success (by decide)⟩

/-- Claim C1 counterexample: with an empty registry, the join request for
chat 100 does NOT lead to an approval call for (100, user), contrary to
the claim that an approval is issued for unregistered chats. -/
theorem unregistered_approval_cex :
    ¬ ((approve_chat_join_request (.ok (get_welcome_message ([] : Registry) 100))
          .success .success 100 5 "Alice").approveCall = some (100, 5)) := by
  decide

/-- Claim C1 (amended): for a chat id with no registry record the approver
issues NO approval action and sends no direct message, and this path
raises no error to its caller. -/
theorem unregistered_no_approval_no_dm (reg : Registry) (chat_id user_id : Int)
    (user_name : String) (approve : ApproveResult) (send : SendResult)
    (h : get_welcome_message reg chat_id = none) :
    (approve_chat_join_request (.ok (get_welcome_message reg chat_id)) approve send
        chat_id user_id user_name).approveCall = none ∧
    (approve_chat_join_request (.ok (get_welcome_message reg chat_id)) approve send
        chat_id user_id user_name).sendCall = none ∧
    (approve_chat_join_request (.ok (get_welcome_message reg chat_id)) approve send
        chat_id user_id user_name).raised = none := by
  rw [h]
  exact ⟨rfl, rfl, rfl⟩

/-- Claim C1 (amended) witness at the input of Scenario 1. -/
theorem unregistered_no_approval_no_dm_witness :
    get_welcome_message ([] : Registry) 100 = none ∧
    ((approve_chat_join_request (.ok (get_welcome_message ([] : Registry) 100))
        .success .success 100 5 "Alice").approveCall = none ∧
     (approve_chat_join_request (.ok (get_welcome_message ([] : Registry) 100))
        .success .success 100 5 "Alice").sendCall = none ∧
     (approve_chat_join_request (.ok (get_welcome_message ([] : Registry) 100))
        .success .success 100 5 "Alice").raised = none) :=
  ⟨by decide, unregistered_no_approval_no_dm [] 100 5 "Alice" .success .success (by decide)⟩

/-- Claim C10: a registry record whose welcome_message is the empty string,
or whose welcome_message field is missing, makes the approver treat the
channel as unregistered: no approval call, no direct message, no log, no
exception, because the guard tests the truthiness of the looked-up value
rather than the presence of the record. -/
theorem falsy_welcome_ignored (reg : Registry) (chat_id user_id : Int) (user_name : String)
    (approve : ApproveResult) (send : SendResult) (r : ChannelRecord)
    (h : find_one reg chat_id = some r)
    (hm : r.welcome_message = some "" ∨ r.welcome_message = none) :
    approve_chat_join_request (.ok (get_welcome_message reg chat_id)) approve send
        chat_id user_id user_name
      = { approveCall := none, sendCall := none, logs := [], raised := none } := by
  have hg : get_welcome_message reg chat_id = r.welcome_message := by
    unfold get_welcome_message; rw [h]
  rw [hg]
  rcases hm with hm | hm <;> rw [hm] <;> rfl

/-- Claim C10 witness at a concrete input (record present, message empty). -/
theorem falsy_welcome_ignored_witness :
    find_one ([⟨100, some ""⟩] : Registry) 100 = some ⟨100, some ""⟩ ∧
    ((⟨100, some ""⟩ : ChannelRecord).welcome_message = some "" ∨
     (⟨100, some ""⟩ : ChannelRecord).welcome_message = none) ∧
    approve_chat_join_request (.ok (get_welcome_message ([⟨100, some ""⟩] : Registry) 100))
        .success .success 100 5 "Alice"
      = { approveCall := none, sendCall := none, logs := [], raised := none } :=
  ⟨by decide, Or.inl rfl,
   falsy_welcome_ignored [⟨100, some ""⟩] 100 5 "Alice" .success .success
     ⟨100, some ""⟩ (by decide) (Or.inl rfl)⟩

/-- Claim C7: on a registered channel with a truthy welcome message, when
the approval call succeeds and the direct message fails with the Forbidden
(user blocked the bot) condition, the approval is recorded by an info log,
the block by a warning log, no error-level log appears, and no exception
escapes the handler. -/
theorem blocked_dm_is_warning (reg : Registry) (chat_id user_id : Int)
    (user_name : String) (m : String)
    (h : get_welcome_message reg chat_id = some m) (hm : ¬ m = "") :
    (approve_chat_join_request (.ok (get_welcome_message reg chat_id)) .success .forbidden
        chat_id user_id user_name).approveCall = some (chat_id, user_id) ∧
    (approve_chat_join_request (.ok (get_welcome_message reg chat_id)) .success .forbidden
        chat_id user_id user_name).logs
      = [⟨.info, "Approved join request for " ++ user_name ++ " in chat "
            ++ toString chat_id ++ "."⟩,
         ⟨.warning, "Could not send PM to " ++ user_name ++ " (blocked bot)."⟩] ∧
    (∀ l ∈ (approve_chat_join_request (.ok (get_welcome_message reg chat_id)) .success
        .forbidden chat_id user_id user_name).logs, ¬ l.level = .error) ∧
    (approve_chat_join_request (.ok (get_welcome_message reg chat_id)) .success .forbidden
        chat_id user_id user_name).raised = none := by
  have hb : ¬ ((m == "") = true) := by simpa using hm
  have hrun : approve_chat_join_request (.ok (some m)) .success .forbidden
      chat_id user_id user_name
      = { approveCall := some (chat_id, user_id), sendCall := some (user_id, m),
          logs := [⟨.info, "Approved join request for " ++ user_name ++ " in chat "
                      ++ toString chat_id ++ "."⟩,
                   ⟨.warning, "Could not send PM to " ++ user_name ++ " (blocked bot)."⟩],
          raised := none } := by
    simp only [approve_chat_join_request]
    rw [if_neg hb]
  rw [h, hrun]
  refine ⟨rfl, rfl, ?_, rfl⟩
  intro l hl
  simp only [List.mem_cons, List.not_mem_nil, or_false] at hl
  rcases hl with hl | hl <;> rw [hl] <;> intro hc <;> cases hc

/-- Claim C7 witness at the input of Scenario 4. -/
theorem blocked_dm_is_warning_witness :
    get_welcome_message ([⟨300, some "Hi there"⟩] : Registry) 300 = some "Hi there" ∧
    ¬ ("Hi there" : String) = "" ∧
    ((approve_chat_join_request
        (.ok (get_welcome_message ([⟨300, some "Hi there"⟩] : Registry) 300))
        .success .forbidden 300 42 "Bob").approveCall = some (300, 42) ∧
     (approve_chat_join_request
        (.ok (get_welcome_message ([⟨300, some "Hi there"⟩] : Registry) 300))
        .success .forbidden 300 42 "Bob").logs
       = [⟨.info, "Approved join request for " ++ "Bob" ++ " in chat "
             ++ toString (300 : Int) ++ "."⟩,
          ⟨.warning, "Could not send PM to " ++ "Bob" ++ " (blocked bot)."⟩] ∧
     (∀ l ∈ (approve_chat_join_request
        (.ok (get_welcome_message ([⟨300, some "Hi there"⟩] : Registry) 300))
        .success .forbidden 300 42 "Bob").logs, ¬ l.level = .error) ∧
     (approve_chat_join_request
        (.ok (get_welcome_message ([⟨300, some "Hi there"⟩] : Registry) 300))
        .success .forbidden 300 42 "Bob").raised = none) :=
  ⟨by decide, by decide,
   blocked_dm_is_warning [⟨300, some "Hi there"⟩] 300 42 "Bob" "Hi there"
     (by decide) (by decide)⟩

/-- Claim C6 counterexample: a storage exception raised by the registry
lookup DOES propagate out of the join-request handler (the lookup stands
outside the try block), contrary to the claim that no storage failure
propagates out of the handler. -/
theorem lookup_failure_propagates_cex :
    ¬ ((approve_chat_join_request (.exn "connection loss") .success .success
          100 5 "Alice").raised = none) := by
  decide

/-- Claim C6 (amended): a storage failure raised by the registry lookup
escapes the join-request handler uncaught, with no approval call and no
direct message attempted for that event; containment of the exception to
that one event is left to the external dispatcher. When the lookup itself
returns, no exception escapes the handler whatever the approval and send
calls do. -/
theorem lookup_failure_behavior (e : String) (approve : ApproveResult) (send : SendResult)
    (chat_id user_id : Int) (user_name : String) :
    (approve_chat_join_request (.exn e) approve send chat_id user_id user_name).raised
      = some e ∧
    (approve_chat_join_request (.exn e) approve send chat_id user_id user_name).approveCall
      = none ∧
    (approve_chat_join_request (.exn e) approve send chat_id user_id user_name).sendCall
      = none ∧
    ∀ v : Option String,
      (approve_chat_join_request (.ok v) approve send chat_id user_id user_name).raised
        = none := by
  refine ⟨rfl, rfl, rfl, ?_⟩
  intro v
  cases v with
  | none => rfl
  | some m =>
      simp only [approve_chat_join_request]
      by_cases hb : ((m == "") = true)
      · rw [if_pos hb]
      · rw [if_neg hb]
        cases approve with
        | failure e2 => rfl
        | success => cases send <;> rfl

/-- Claim C4: from AWAIT_FORWARD every defined input either self-loops
with the retry reply (the input is not a channel forward) or reaches the
terminal END state (channel forward with success, permission failure or
unexpected error, and explicit cancel); no input leaves the session in any
other state. -/
theorem wizard_step_total (reg : Registry) (inp : WizardInput) :
    ((wizard_step reg inp).state = .AWAIT_FORWARD ∧ inp = .nonForward ∧
       (wizard_step reg inp).replies = [retry_reply]) ∨
    (wizard_step reg inp).state = .END := by
  cases inp with
  | nonForward => exact Or.inl ⟨rfl, rfl, rfl⟩
  | cancel => exact Or.inr rfl
  | channelForward chat_id chat_title check registryFailure =>
      refine Or.inr ?_
      cases check with
      | error e => rfl
      | ok m =>
          simp only [wizard_step, handle_forwarded_message]
          by_cases hb : ((m.status == "administrator" && m.can_invite_users) = true)
          · rw [if_pos hb]
            cases registryFailure <;> rfl
          · rw [if_neg hb]

/-- Claim C5: when the membership check reports a status that is not
administrator, or administrator without can_invite_users, the wizard
replies with the failure message, ends the conversation, never calls the
registry upsert and leaves the registry unchanged. -/
theorem permission_gate (reg : Registry) (chat_id : Int) (chat_title : String)
    (m : ChatMember) (registryFailure : Option String)
    (h : ¬ (m.status = "administrator" ∧ m.can_invite_users = true)) :
    handle_forwarded_message reg (some (chat_id, chat_title)) (.ok m) registryFailure
      = { state := .END, replies := [perm_fail_reply chat_title], registry := reg,
          upsertCalled := false } := by
  have hb : ¬ ((m.status == "administrator" && m.can_invite_users) = true) := by
    intro hc
    rw [Bool.and_eq_true, beq_iff_eq] at hc
    exact h hc
  simp only [handle_forwarded_message]
  rw [if_neg hb]

/-- Claim C5 witness at a concrete input (status member). -/
theorem permission_gate_witness :
    ¬ ((({ status := "member", can_invite_users := true } : ChatMember).status
          = "administrator") ∧
       ({ status := "member", can_invite_users := true } : ChatMember).can_invite_users
          = true) ∧
    handle_forwarded_message ([] : Registry) (some (200, "News"))
        (.ok { status := "member", can_invite_users := true }) none
      = { state := .END, replies := [perm_fail_reply "News"], registry := [],
          upsertCalled := false } :=
  ⟨by decide,
   permission_gate [] 200 "News" { status := "member", can_invite_users := true } none
     (by decide)⟩

/-- Every registry the program itself can build carries only the default
welcome message (add_channel is the only writer and only ever inserts the
default); this discharges the hypothesis of the Scenario 3 theorem on all
program-reachable states. -/
theorem reachable_all_default (reg : Registry) (h : Reachable reg) :
    ∀ r ∈ reg, r.welcome_message = some default_message := by
  induction h with
  | empty => intro r hr; cases hr
  | step reg0 chat_id _ ih =>
      intro r hr
      cases hf : find_one reg0 chat_id with
      | some x =>
          have h1 : add_channel reg0 chat_id = reg0 := by unfold add_channel; rw [hf]
          rw [h1] at hr
          exact ih r hr
      | none =>
          have h1 : add_channel reg0 chat_id
              = reg0 ++ [{ id := chat_id, welcome_message := some default_message }] := by
            unfold add_channel; rw [hf]
          rw [h1] at hr
          rcases List.mem_append.mp hr with hr | hr
          · exact ih r hr
          · rw [List.mem_singleton] at hr
            rw [hr]

/-- Claim C8: a channel forward with membership administrator and
can_invite_users true makes the wizard register the channel, after which
the registry maps the channel id to exactly the default welcome message,
the reply names the channel title, and the session ends. The hypothesis,
true of every program-reachable registry by reachable_all_default, says
any pre-existing record for the id already carries the default message. -/
theorem connect_success_registers_default (reg : Registry) (chat_id : Int)
    (chat_title : String)
    (h : ∀ r ∈ reg, r.id = chat_id → r.welcome_message = some default_message) :
    (handle_forwarded_message reg (some (chat_id, chat_title))
        (.ok { status := "administrator", can_invite_users := true }) none).state = .END ∧
    (handle_forwarded_message reg (some (chat_id, chat_title))
        (.ok { status := "administrator", can_invite_users := true }) none).replies
      = [success_reply chat_title] ∧
    get_welcome_message (handle_forwarded_message reg (some (chat_id, chat_title))
        (.ok { status := "administrator", can_invite_users := true }) none).registry chat_id
      = some default_message := by
  have hh : handle_forwarded_message reg (some (chat_id, chat_title))
      (.ok { status := "administrator", can_invite_users := true }) none
      = { state := .END, replies := [success_reply chat_title],
          registry := add_channel reg chat_id, upsertCalled := true } := rfl
  refine ⟨by rw [hh], by rw [hh], ?_⟩
  rw [hh]
  show get_welcome_message (add_channel reg chat_id) chat_id = some default_message
  cases hf : find_one reg chat_id with
  | some r =>
      have h1 : add_channel reg chat_id = reg := by unfold add_channel; rw [hf]
      rw [h1]
      unfold get_welcome_message
      rw [hf]
      have hmem : r ∈ reg := by
        unfold find_one at hf
        exact List.mem_of_find?_eq_some hf
      have hp : (r.id == chat_id) = true := by
        unfold find_one at hf
        simpa using List.find?_some hf
      exact h r hmem (by exact beq_iff_eq.mp hp)
  | none =>
      have h1 : add_channel reg chat_id
          = reg ++ [{ id := chat_id, welcome_message := some default_message }] := by
        unfold add_channel; rw [hf]
      rw [h1]
      unfold get_welcome_message
      rw [find_one_append_single reg _ chat_id hf (by simp)]

/-- Claim C8 witness at the input of Scenario 3. -/
theorem connect_success_registers_default_witness :
    (∀ r ∈ ([] : Registry), r.id = 200 → r.welcome_message = some default_message) ∧
    ((handle_forwarded_message ([] : Registry) (some (200, "News"))
        (.ok { status := "administrator", can_invite_users := true }) none).state = .END ∧
     (handle_forwarded_message ([] : Registry) (some (200, "News"))
        (.ok { status := "administrator", can_invite_users := true }) none).replies
       = [success_reply "News"] ∧
     get_welcome_message (handle_forwarded_message ([] : Registry) (some (200, "News"))
        (.ok { status := "administrator", can_invite_users := true }) none).registry 200
       = some default_message) :=
  ⟨by simp,
   connect_success_registers_default [] 200 "News" (by simp)⟩

/-- Claim C9: when the platform token or the registry connection string is
falsy, or the registry client connection was not established, main logs
the fatal diagnostic and returns without registering handlers or starting
the polling loop. -/
theorem missing_config_fatal (cfg : Config)
    (h : truthy cfg.bot_token = false ∨ truthy cfg.mongodb_uri = false ∨
         cfg.client_connected = false) :
    main cfg
      = .fatalExit "Missing BOT_TOKEN or MONGODB_URI, or failed to connect to DB. Exiting." := by
  have hb : ¬ ((truthy cfg.bot_token && truthy cfg.mongodb_uri && cfg.client_connected)
      = true) := by
    rcases h with h | h | h <;> simp [h]
  simp only [main]
  rw [if_neg hb]

/-- Claim C9 witness at the input of Scenario 5 (connection string absent). -/
theorem missing_config_fatal_witness :
    (truthy (⟨some "token", none, true⟩ : Config).bot_token = false ∨
     truthy (⟨some "token", none, true⟩ : Config).mongodb_uri = false ∨
     (⟨some "token", none, true⟩ : Config).client_connected = false) ∧
    main (⟨some "token", none, true⟩ : Config)
      = .fatalExit "Missing BOT_TOKEN or MONGODB_URI, or failed to connect to DB. Exiting." :=
  ⟨by decide,
   missing_config_fatal (⟨some "token", none, true⟩ : Config) (by decide)⟩

end AccepterBot
